import Mathlib

/-!
Verification of the `cwb` CLI (chat-workbench `cli/src`): a shallow Lean
embedding of its configuration resolver (`config.rs`, `main.rs`), command
execution subsystem (`utils/executor.rs`), confirmation prompts
(`utils/prompts.rs`, `commands/deploy.rs`) and component registry
(`config.rs`, `commands/dev.rs`, `commands/deps.rs`).

External processes are modelled by an oracle `World : Req → SpawnOutcome`
giving each spawned command its OS-level outcome; every executor entry point
additionally returns the list of requests it actually handed to the OS, so
"never spawns" and "all members run" are stated as facts about that trace.
-/

/-! ## Byte-level UTF-8 decoding

Models Rust's `String::from_utf8` (strict) and `String::from_utf8_lossy`
(replacement character on invalid sequences), which `executor.rs` applies to
captured child stdout/stderr. Bytes are `Nat`s below 256. -/

/-- Continuation byte test: `0x80 ≤ b ≤ 0xBF`. -/
def contByte (b : Nat) : Bool := 0x80 ≤ b && b ≤ 0xBF

/-- Valid second byte of a three-byte sequence, given the lead byte
(excludes overlong encodings and surrogates as UTF-8 does). -/
def utf8ThreeValid (b b1 : Nat) : Bool :=
  if b = 0xE0 then 0xA0 ≤ b1 && b1 ≤ 0xBF
  else if b = 0xED then 0x80 ≤ b1 && b1 ≤ 0x9F
  else contByte b1

/-- Valid second byte of a four-byte sequence, given the lead byte
(excludes overlong encodings and code points above `0x10FFFF`). -/
def utf8FourValid (b b1 : Nat) : Bool :=
  if b = 0xF0 then 0x90 ≤ b1 && b1 ≤ 0xBF
  else if b = 0xF4 then 0x80 ≤ b1 && b1 ≤ 0x8F
  else contByte b1

/-- Strict UTF-8 decoding of a byte list, as `String::from_utf8`:
`none` exactly when the bytes are not valid UTF-8. -/
def utf8DecodeChars : List Nat → Option (List Char)
  | [] => some []
  | b :: rest =>
    if b ≤ 0x7F then
      match utf8DecodeChars rest with
      | some cs => some (Char.ofNat b :: cs)
      | none => none
    else if 0xC2 ≤ b && b ≤ 0xDF then
      match rest with
      | b1 :: rest1 =>
        if contByte b1 then
          match utf8DecodeChars rest1 with
          | some cs => some (Char.ofNat ((b - 0xC0) * 64 + (b1 - 0x80)) :: cs)
          | none => none
        else none
      | [] => none
    else if 0xE0 ≤ b && b ≤ 0xEF then
      match rest with
      | b1 :: b2 :: rest2 =>
        if utf8ThreeValid b b1 && contByte b2 then
          match utf8DecodeChars rest2 with
          | some cs =>
            some (Char.ofNat ((b - 0xE0) * 4096 + (b1 - 0x80) * 64 + (b2 - 0x80)) :: cs)
          | none => none
        else none
      | _ => none
    else if 0xF0 ≤ b && b ≤ 0xF4 then
      match rest with
      | b1 :: b2 :: b3 :: rest3 =>
        if utf8FourValid b b1 && contByte b2 && contByte b3 then
          match utf8DecodeChars rest3 with
          | some cs =>
            some (Char.ofNat
              ((b - 0xF0) * 262144 + (b1 - 0x80) * 4096 + (b2 - 0x80) * 64 + (b3 - 0x80)) :: cs)
          | none => none
        else none
      | _ => none
    else none

/-- Strict UTF-8 decoding to a `String`, as `String::from_utf8`. -/
def utf8Decode (bytes : List Nat) : Option String :=
  (utf8DecodeChars bytes).map (fun cs => ⟨cs⟩)

/-- Lossy UTF-8 decoding, as `String::from_utf8_lossy`: invalid bytes become
the replacement character `U+FFFD`. -/
def utf8LossyChars : List Nat → List Char
  | [] => []
  | b :: rest =>
    if b ≤ 0x7F then Char.ofNat b :: utf8LossyChars rest
    else if 0xC2 ≤ b && b ≤ 0xDF then
      match rest with
      | b1 :: rest1 =>
        if contByte b1 then Char.ofNat ((b - 0xC0) * 64 + (b1 - 0x80)) :: utf8LossyChars rest1
        else Char.ofNat 0xFFFD :: utf8LossyChars rest1
      | [] => [Char.ofNat 0xFFFD]
    else if 0xE0 ≤ b && b ≤ 0xEF then
      match rest with
      | b1 :: b2 :: rest2 =>
        if utf8ThreeValid b b1 && contByte b2 then
          Char.ofNat ((b - 0xE0) * 4096 + (b1 - 0x80) * 64 + (b2 - 0x80)) :: utf8LossyChars rest2
        else Char.ofNat 0xFFFD :: utf8LossyChars (b1 :: b2 :: rest2)
      | rest' => Char.ofNat 0xFFFD :: utf8LossyChars rest'
    else if 0xF0 ≤ b && b ≤ 0xF4 then
      match rest with
      | b1 :: b2 :: b3 :: rest3 =>
        if utf8FourValid b b1 && contByte b2 && contByte b3 then
          Char.ofNat
            ((b - 0xF0) * 262144 + (b1 - 0x80) * 4096 + (b2 - 0x80) * 64 + (b3 - 0x80))
            :: utf8LossyChars rest3
        else Char.ofNat 0xFFFD :: utf8LossyChars (b1 :: b2 :: b3 :: rest3)
      | rest' => Char.ofNat 0xFFFD :: utf8LossyChars rest'
    else Char.ofNat 0xFFFD :: utf8LossyChars rest

/-- Lossy UTF-8 decoding to a `String`. -/
def utf8Lossy (bytes : List Nat) : String := ⟨utf8LossyChars bytes⟩

/-! ## Command execution subsystem (`utils/executor.rs`) -/

/-- One external invocation: executable name, ordered argument list, optional
working directory (the `(String, Vec<String>, Option<PathBuf>)` triples and
the `cmd/args/working_dir` parameters of `executor.rs`). -/
structure Req where
  cmd : String
  args : List String
  workingDir : Option String
deriving Repr, DecidableEq

/-- OS-level outcome of one spawned process: exit status, exit code (as
`status.code()`, `none` on signal death) and raw output bytes. -/
structure ProcOut where
  success : Bool
  exitCode : Option Int
  stdout : List Nat
  stderr : List Nat
deriving Repr, DecidableEq

/-- What the OS does with a spawn attempt: the process runs to completion
with an outcome, or the spawn itself fails (missing binary, permissions),
which Rust surfaces as the `Err` of `Command::output()`/`status()`. -/
inductive SpawnOutcome where
  | ran (out : ProcOut)
  | spawnFailed (osError : String)
deriving Repr, DecidableEq

/-- The process-table oracle: each request's OS-level outcome. -/
def World : Type := Req → SpawnOutcome

/-- An `anyhow::Error` as `executor.rs` builds them: a formatted message
(`bail!`/`anyhow!`), a `FromUtf8Error` (from `String::from_utf8`), an OS
error, or a `.context(...)` wrapping of an inner error. -/
inductive ExecError where
  | msg (s : String)
  | utf8 (bytes : List Nat)
  | os (s : String)
  | context (s : String) (inner : ExecError)
deriving Repr, DecidableEq

/-- `args.join(" ")`. -/
def joinedArgs (args : List String) : String := String.intercalate " " args

/-- `format!("{} {}", cmd, args.join(" "))` — the `full_command` of
`executor.rs`. -/
def fullCommand (r : Req) : String := r.cmd ++ " " ++ joinedArgs r.args

/-- Rust's `{:?}` rendering of `status.code() : Option<i32>`. -/
def formatExitCode : Option Int → String
  | some c => s!"Some({c})"
  | none => "None"

/-- The `CommandExecutor` struct: `dry_run` and `verbose` flags
(`verbose` only controls logging, never the result or the spawn set). -/
structure CommandExecutor where
  dryRun : Bool
  verbose : Bool
deriving Repr, DecidableEq

/-- `CommandExecutor::execute` (captured mode), lines 18–73 of
`executor.rs`. Returns the result together with the list of requests
handed to the OS: `[]` in dry-run mode (early return at line 33), `[r]`
otherwise. On non-zero exit it bails with the exit-code message; on success
it decodes stdout with `String::from_utf8`, failing with the
"Command output is not valid UTF-8" context when invalid. -/
def execute (ex : CommandExecutor) (world : World) (r : Req) :
    Except ExecError String × List Req :=
  if ex.dryRun then
    (.ok "DRY RUN", [])
  else
    match world r with
    | .spawnFailed e =>
      (.error (.context s!"Failed to execute command: {fullCommand r}" (.os e)), [r])
    | .ran out =>
      if !out.success then
        (.error (.msg s!"Command failed with exit code: {formatExitCode out.exitCode}"), [r])
      else
        match utf8Decode out.stdout with
        | some s => (.ok s, [r])
        | none =>
          (.error (.context "Command output is not valid UTF-8" (.utf8 out.stdout)), [r])

/-- `CommandExecutor::execute_streaming`, lines 75–114: child inherits the
caller's stdout/stderr (nothing captured), so success is `()`. Dry-run
returns `Ok(())` at line 90 without spawning. -/
def executeStreaming (ex : CommandExecutor) (world : World) (r : Req) :
    Except ExecError Unit × List Req :=
  if ex.dryRun then
    (.ok (), [])
  else
    match world r with
    | .spawnFailed e =>
      (.error (.context s!"Failed to execute command: {fullCommand r}" (.os e)), [r])
    | .ran out =>
      if !out.success then
        (.error (.msg s!"Command failed with exit code: {formatExitCode out.exitCode}"), [r])
      else
        (.ok (), [r])

/-- `CommandExecutor::execute_single`, lines 180–209: the per-task body of
the parallel runner (no dry-run check of its own). On non-zero exit the
error message embeds the command line and the lossily-decoded stderr; on
success stdout is decoded strictly (`Ok(String::from_utf8(output.stdout)?)`). -/
def executeSingle (world : World) (r : Req) : Except ExecError String :=
  match world r with
  | .spawnFailed e =>
    .error (.context s!"Failed to execute: {r.cmd} {joinedArgs r.args}" (.os e))
  | .ran out =>
    if !out.success then
      .error (.msg s!"Command failed: {r.cmd} {joinedArgs r.args}\nError: {utf8Lossy out.stderr}")
    else
      match utf8Decode out.stdout with
      | some s => .ok s
      | none => .error (.utf8 out.stdout)

/-- The error-collection loop at lines 169–175 of `execute_parallel`: walk
the joined task results in input order, pushing outputs, returning at the
first failure after wrapping it in the "Command execution failed" context. -/
def collectOutputs : List (Except ExecError String) → Except ExecError (List String)
  | [] => .ok []
  | .error e :: _ => .error (.context "Command execution failed" e)
  | .ok s :: rest =>
    match collectOutputs rest with
    | .ok outs => .ok (s :: outs)
    | .error e => .error e

/-- `CommandExecutor::execute_parallel`, lines 116–178. Dry-run
short-circuits at line 120, spawning nothing and returning one "DRY RUN"
per member. Otherwise every member is spawned on its own task
(`tokio::spawn` at line 151, one per command, in input order) and
`join_all` (line 163) awaits them all to completion before the
error-collection loop runs; the spawn trace is therefore exactly the input
list. -/
def executeParallel (ex : CommandExecutor) (world : World) (commands : List Req) :
    Except ExecError (List String) × List Req :=
  if ex.dryRun then
    (.ok (List.replicate commands.length "DRY RUN"), [])
  else
    (collectOutputs (commands.map (executeSingle world)), commands)

/-- First member failure, in input (positional) order, among the joined
task results of a batch. -/
def firstError (results : List (Except ExecError String)) : Option ExecError :=
  results.findSome? (fun r => match r with | .error e => some e | .ok _ => none)

/-! ## Configuration data model (`config.rs`) -/

/-- `UiConfig`. -/
structure UiConfig where
  title : String
deriving Repr, DecidableEq

/-- `VpcConfig`. -/
structure VpcConfig where
  vpcId : Option String
  publicSubnetIds : List String
  privateSubnetIds : List String
  isolatedSubnetIds : List String
deriving Repr, DecidableEq

/-- `CognitoAuthConfig`. -/
structure CognitoAuthConfig where
  userPoolName : String
  userPoolDomainName : String
deriving Repr, DecidableEq

/-- `LoadBalancerConfig`. -/
structure LoadBalancerConfig where
  idleTimeout : Nat
  albPlacement : String
  sslCertificateArn : Option String
deriving Repr, DecidableEq

/-- `ManagedRules`. -/
structure ManagedRules where
  coreRuleSet : Bool
  knownBadInputs : Bool
  amazonIpReputation : Bool
deriving Repr, DecidableEq

/-- `RateLimiting`. -/
structure RateLimiting where
  enabled : Bool
  requestsPerMinute : Nat
deriving Repr, DecidableEq

/-- `WafLogging`. -/
structure WafLogging where
  enabled : Bool
deriving Repr, DecidableEq

/-- `WafConfig`. -/
structure WafConfig where
  managedRules : ManagedRules
  rateLimiting : RateLimiting
  logging : WafLogging
deriving Repr, DecidableEq

/-- `AlarmConfig`. -/
structure AlarmConfig where
  enable : Bool
  period : Nat
  threshold : Nat
  evaluationPeriods : Nat
  loggingFilterPatterns : List String
  emailAddresses : Option (List String)
deriving Repr, DecidableEq

/-- `AuthConfig`. -/
structure AuthConfig where
  enableAuth : Bool
  authority : String
  clientId : String
  secretName : String
deriving Repr, DecidableEq

/-- `ContainerHealthCheckConfig`. -/
structure ContainerHealthCheckConfig where
  command : List String
  interval : Nat
  startPeriod : Nat
  timeout : Nat
  retries : Nat
deriving Repr, DecidableEq

/-- `ContainerConfig`. -/
structure ContainerConfig where
  cpuLimit : Nat
  memoryLimit : Nat
  healthCheckConfig : ContainerHealthCheckConfig
deriving Repr, DecidableEq

/-- `HealthCheckConfig`. -/
structure HealthCheckConfig where
  path : String
  interval : Nat
  timeout : Nat
  healthyThresholdCount : Nat
  unhealthyThresholdCount : Nat
deriving Repr, DecidableEq

/-- `MetricConfig`. -/
structure MetricConfig where
  albMetricName : String
  targetValue : Nat
  duration : Nat
  estimatedInstanceWarmup : Nat
deriving Repr, DecidableEq

/-- `AutoScalingConfig`. -/
structure AutoScalingConfig where
  minCapacity : Nat
  maxCapacity : Nat
  defaultInstanceWarmup : Nat
  cooldown : Nat
  metricConfig : MetricConfig
deriving Repr, DecidableEq

/-- `RestApiConfig`. -/
structure RestApiConfig where
  apiVersion : String
  containerConfig : ContainerConfig
  healthCheckConfig : HealthCheckConfig
  autoScalingConfig : AutoScalingConfig
deriving Repr, DecidableEq

/-- `DataConfig`. -/
structure DataConfig where
  elastiCacheStorageLimitGb : Nat
  elastiCacheEcpuLimit : Nat
  fileStorageEnabled : Bool
  fileStorageType : String
  openSearchEnabled : Bool
  openSearchDefaultIndex : String
  openSearchStandbyReplicas : Bool
  neptuneEnabled : Bool
  bedrockKnowledgeBaseEnabled : Bool
  embeddingModelId : String
  vectorIndexName : String
deriving Repr, DecidableEq

/-- `Tag`. -/
structure Tag where
  key : String
  value : String
deriving Repr, DecidableEq

/-- `EnvConfig`: one environment's resolved settings. -/
structure EnvConfig where
  awsProfile : Option String
  deploymentName : String
  accountNumber : String
  region : String
  deploymentStage : String
  appName : String
  logLevel : String
  targetPlatform : String
  removalPolicy : String
  runCdkNag : Bool
  uiConfig : UiConfig
  vpcConfig : VpcConfig
  cognitoAuthConfig : CognitoAuthConfig
  loadBalancerConfig : LoadBalancerConfig
  wafConfig : WafConfig
  alarmConfig : AlarmConfig
  authConfig : AuthConfig
  restApiConfig : RestApiConfig
  dataConfig : DataConfig
  tags : List Tag
deriving Repr, DecidableEq

/-- `ProjectConfig`: the loaded configuration document. `env` is the default
environment name; `dev` is always present, `staging`/`prod` optional. -/
structure ProjectConfig where
  env : String
  dev : EnvConfig
  staging : Option EnvConfig
  prod : Option EnvConfig
deriving Repr, DecidableEq

/-- `ProjectConfig::get_env_config` (`config.rs` lines 403–412): match on
the requested name; unconfigured `staging`/`prod` yield dedicated messages,
any other non-`dev` name yields the fixed valid-options message. -/
def getEnvConfig (cfg : ProjectConfig) (env : String) : Except String EnvConfig :=
  if env = "dev" then .ok cfg.dev
  else if env = "staging" then
    match cfg.staging with
    | some c => .ok c
    | none => .error "Staging environment not configured"
  else if env = "prod" then
    match cfg.prod with
    | some c => .ok c
    | none => .error "Production environment not configured"
  else .error s!"Invalid environment '{env}'. Valid options: dev, staging, prod"

/-- `ProjectConfig::get_default_env`. -/
def getDefaultEnv (cfg : ProjectConfig) : String := cfg.env

/-- `ProjectConfig::get_available_environments` (lines 420–429): starts from
`["dev"]` and appends `staging`/`prod` when configured. -/
def getAvailableEnvironments (cfg : ProjectConfig) : List String :=
  let envs := ["dev"]
  let envs := if cfg.staging.isSome then envs ++ ["staging"] else envs
  if cfg.prod.isSome then envs ++ ["prod"] else envs

/-- Environment-name selection in `main.rs` lines 34–35:
`cli.env.as_deref().unwrap_or_else(|| project_config.get_default_env())`. -/
def resolveEnvName (cliEnv : Option String) (cfg : ProjectConfig) : String :=
  match cliEnv with
  | some e => e
  | none => getDefaultEnv cfg

/-- Environment resolution as every command run performs it (`main.rs`
lines 34–38): substitute the default when no override is given, then look
the name up in the document. -/
def resolveEnvironment (cfg : ProjectConfig) (cliEnv : Option String) :
    Except String EnvConfig :=
  getEnvConfig cfg (resolveEnvName cliEnv cfg)

/-- The prefix of `run` in `main.rs` (lines 24–70) relevant to environment
resolution: `get_env_config` runs (with `?`) before any command dispatch,
so on a resolution error the dispatch — abstracted here as a continuation
returning its own result and spawn trace — never runs and the spawn trace
is empty. -/
def runModel (cliEnv : Option String) (cfg : ProjectConfig)
    (dispatch : EnvConfig → Except String Unit × List Req) :
    Except String Unit × List Req :=
  match resolveEnvironment cfg cliEnv with
  | .error e => (.error e, [])
  | .ok envCfg => dispatch envCfg

/-- Exit-code behavior of `main` (`main.rs` lines 13–22): a failed `run`
exits 1, a successful one exits 0. -/
def mainExitCode {α : Type} : Except α Unit → Nat
  | .ok _ => 0
  | .error _ => 1

/-! ## Config file search (`config.rs` lines 433–459) -/

/-- The primary configuration filename. -/
def configFileName : String := "config.yaml"

/-- The documented example fallback filename. -/
def exampleFileName : String := "config.yaml.example"

/-- `Path::join` for this model. -/
def joinPath (dir file : String) : String := dir ++ "/" ++ file

/-- `find_config_file`: the loop over the current directory and its ancestor
chain (`dirs`, nearest first, ending at the filesystem root), probing
`config.yaml` then `config.yaml.example` in each directory against the
filesystem oracle `fileExists`, returning the first hit or the
config-not-found error after the root. -/
def findConfigFile (fileExists : String → Bool) : List String → Except String String
  | [] => .error "No config.yaml file found. Make sure you're in the project directory."
  | dir :: ancestors =>
    if fileExists (joinPath dir configFileName) then .ok (joinPath dir configFileName)
    else if fileExists (joinPath dir exampleFileName) then .ok (joinPath dir exampleFileName)
    else findConfigFile fileExists ancestors

/-- Modelled from the spec's words for the search contract: the first
directory (nearest first) containing either recognized filename wins, with
the primary name preferred over the fallback inside that directory; no such
directory means the config-not-found error. Used only to compare
`findConfigFile` against the specification. -/
def findConfigFileSpec (fileExists : String → Bool) (dirs : List String) :
    Except String String :=
  match dirs.find? (fun d =>
      fileExists (joinPath d configFileName) || fileExists (joinPath d exampleFileName)) with
  | some d =>
    .ok (if fileExists (joinPath d configFileName) then joinPath d configFileName
         else joinPath d exampleFileName)
  | none => .error "No config.yaml file found. Make sure you're in the project directory."

/-! ## Component registry (`config.rs` lines 461–519, `commands/dev.rs`,
`commands/deps.rs`) -/

/-- `ComponentConfig`: one project component's toolchain description. -/
structure ComponentConfig where
  name : String
  path : String
  language : String
  packageManager : String
  testCommand : Option String
  lintCommand : Option String
  buildCommand : Option String
  formatCommand : Option String
  devCommand : Option String
deriving Repr, DecidableEq

/-- `ComponentConfig::get_default_components`: the compiled-in registry,
here an association list keyed by component name (the source uses a
`HashMap`; only keyed lookup is ever performed on it). -/
def getDefaultComponents : List (String × ComponentConfig) :=
  [ ("backend",
     { name := "backend", path := "./backend", language := "python",
       packageManager := "uv",
       testCommand := some "pytest", lintCommand := some "ruff check",
       buildCommand := none, formatCommand := some "ruff format",
       devCommand := some "python -m app.api.main" }),
    ("frontend",
     { name := "frontend", path := "./ui", language := "typescript",
       packageManager := "npm",
       testCommand := some "npm test", lintCommand := some "npm run lint",
       buildCommand := some "npm run build", formatCommand := some "npm run format",
       devCommand := some "npm run dev" }),
    ("infrastructure",
     { name := "infrastructure", path := "./infrastructure/cdk",
       language := "typescript", packageManager := "npm",
       testCommand := some "npm test", lintCommand := some "npm run lint",
       buildCommand := some "npm run build", formatCommand := none,
       devCommand := none }) ]

/-- Registry lookup as the command handlers perform it
(`components.get(&component).ok_or_else(|| anyhow!("Component '{}' not found", ...))`,
`dev.rs` lines 72–73 and `deps.rs` lines 54–55). -/
def lookupComponent (components : List (String × ComponentConfig)) (name : String) :
    Except String ComponentConfig :=
  match components.lookup name with
  | some c => .ok c
  | none => .error s!"Component '{name}' not found"

/-! ## Substring helper (for stating what an error message does or does not
mention) -/

/-- Whether `pat` occurs at the head of `cs`. -/
def charsStartWith : List Char → List Char → Bool
  | [], _ => true
  | _ :: _, [] => false
  | p :: ps, c :: cs => p == c && charsStartWith ps cs

/-- Whether `pat` occurs anywhere in `cs`. -/
def charsHaveSublist (pat : List Char) : List Char → Bool
  | [] => charsStartWith pat []
  | c :: cs => charsStartWith pat (c :: cs) || charsHaveSublist pat cs

/-- Whether string `pat` occurs as a substring of `s`. -/
def strContains (s pat : String) : Bool := charsHaveSublist pat.data s.data

/-! ## Confirmation gate and destroy flow (`utils/prompts.rs`,
`commands/deploy.rs` lines 79–122) -/

/-- A `dialoguer::Confirm` prompt as `prompts.rs` configures it: its message
and its default answer. -/
structure ConfirmPrompt where
  message : String
  defaultAnswer : Bool
deriving Repr, DecidableEq

/-- `prompts::confirm_destructive` (lines 11–21): destructive-action
confirmation with the irreversibility warning and default answer `false`. -/
def confirmDestructive (action target : String) : ConfirmPrompt :=
  { message :=
      s!"Are you sure you want to {action} '{target}'? This action cannot be undone.",
    defaultAnswer := false }

deriving instance DecidableEq for Except

/-- Observable outcome of one `destroy_stacks` call: its `Result`, the
requests handed to the process executor, the confirmation prompts shown,
and the `logger::info` messages printed. -/
structure DestroyRun where
  result : Except ExecError Unit
  execCalls : List Req
  prompts : List ConfirmPrompt
  infoLogs : List String
deriving Repr, DecidableEq

/-- The CDK directory hardcoded in `deploy.rs`. -/
def cdkDir : String := "./infrastructure/cdk"

/-- `get_available_stacks` output parsing (`deploy.rs` lines 211–221):
non-blank trimmed lines of `cdk list` output. -/
def parseStackList (output : String) : List String :=
  ((output.splitOn "\n").filter (fun line => !line.trim.isEmpty)).map String.trim

/-- The post-gate body of `destroy_stacks` (`deploy.rs` lines 96–121):
`setup_cdk_environment` (process-global env-var writes, no executor call),
then one of the three destroy branches. `selection` is the operator's
choice in the interactive stack picker. -/
def destroyStacksBody (stack : Option String) (all : Bool) (_envCfg : EnvConfig)
    (ex : CommandExecutor) (world : World) (selection : Nat)
    (prompts : List ConfirmPrompt) : DestroyRun :=
  if all then
    let r := executeStreaming ex world ⟨"cdk", ["destroy", "--all", "--force"], some cdkDir⟩
    { result := r.fst, execCalls := r.snd, prompts := prompts,
      infoLogs := ["Destroying all stacks..."] }
  else
    match stack with
    | some stackName =>
      let r := executeStreaming ex world ⟨"cdk", ["destroy", stackName, "--force"], some cdkDir⟩
      { result := r.fst, execCalls := r.snd, prompts := prompts,
        infoLogs := [s!"Destroying stack: {stackName}"] }
    | none =>
      match execute ex world ⟨"cdk", ["list"], some cdkDir⟩ with
      | (.error e, calls) =>
        { result := .error e, execCalls := calls, prompts := prompts, infoLogs := [] }
      | (.ok output, calls) =>
        let availableStacks := parseStackList output
        if availableStacks.isEmpty then
          { result := .error (.msg "No CDK stacks found"), execCalls := calls,
            prompts := prompts, infoLogs := [] }
        else
          let selected := availableStacks.getD selection ""
          let r := executeStreaming ex world ⟨"cdk", ["destroy", selected, "--force"], some cdkDir⟩
          { result := r.fst, execCalls := calls ++ r.snd, prompts := prompts,
            infoLogs := [s!"Destroying stack: {selected}"] }

/-- The `target` binding of `deploy.rs` line 88: what the destroy
confirmation prompt names. -/
def destroyTarget (stack : Option String) (all : Bool) : String :=
  if all then "all stacks" else stack.getD "selected stack"

/-- `destroy_stacks` (`deploy.rs` lines 79–122). When `force` is false the
confirmation gate runs first: the prompt built by `confirm_destructive`
is shown and a `false` answer returns `Ok(())` immediately after the
"Destroy operation cancelled" info log, reaching neither
`setup_cdk_environment` nor any executor call. When `force` is true the
gate block is skipped entirely — no prompt, the operator's pending answer
is never read. -/
def destroyStacks (stack : Option String) (all : Bool) (envCfg : EnvConfig)
    (ex : CommandExecutor) (force : Bool) (world : World)
    (confirmAnswer : Bool) (selection : Nat) : DestroyRun :=
  if !force then
    let target := destroyTarget stack all
    let prompt := confirmDestructive "destroy" s!"{target} in {envCfg.deploymentName}"
    if !confirmAnswer then
      { result := .ok (), execCalls := [], prompts := [prompt],
        infoLogs := ["Destroy operation cancelled"] }
    else
      destroyStacksBody stack all envCfg ex world selection [prompt]
  else
    destroyStacksBody stack all envCfg ex world selection []

/-! ## Concrete fixtures for witnesses and counterexamples -/

/-- A fully-populated sample environment, used to build concrete documents. -/
def sampleEnvConfig : EnvConfig :=
  { awsProfile := none,
    deploymentName := "app-dev",
    accountNumber := "111111111111",
    region := "us-east-1",
    deploymentStage := "dev",
    appName := "app",
    logLevel := "INFO",
    targetPlatform := "linux/amd64",
    removalPolicy := "destroy",
    runCdkNag := false,
    uiConfig := { title := "App" },
    vpcConfig :=
      { vpcId := none, publicSubnetIds := [], privateSubnetIds := [],
        isolatedSubnetIds := [] },
    cognitoAuthConfig := { userPoolName := "pool", userPoolDomainName := "pool-domain" },
    loadBalancerConfig :=
      { idleTimeout := 60, albPlacement := "public", sslCertificateArn := none },
    wafConfig :=
      { managedRules :=
          { coreRuleSet := false, knownBadInputs := true, amazonIpReputation := true },
        rateLimiting := { enabled := true, requestsPerMinute := 2000 },
        logging := { enabled := false } },
    alarmConfig :=
      { enable := false, period := 1, threshold := 1, evaluationPeriods := 1,
        loggingFilterPatterns := [], emailAddresses := none },
    authConfig :=
      { enableAuth := true, authority := "https://auth.example.com",
        clientId := "client", secretName := "secret" },
    restApiConfig :=
      { apiVersion := "v1",
        containerConfig :=
          { cpuLimit := 1024, memoryLimit := 2048,
            healthCheckConfig :=
              { command := ["CMD-SHELL", "exit 0"], interval := 10, startPeriod := 30,
                timeout := 5, retries := 3 } },
        healthCheckConfig :=
          { path := "/health", interval := 60, timeout := 30,
            healthyThresholdCount := 2, unhealthyThresholdCount := 10 },
        autoScalingConfig :=
          { minCapacity := 1, maxCapacity := 5, defaultInstanceWarmup := 120,
            cooldown := 300,
            metricConfig :=
              { albMetricName := "RequestCountPerTarget", targetValue := 100,
                duration := 60, estimatedInstanceWarmup := 60 } } },
    dataConfig :=
      { elastiCacheStorageLimitGb := 50, elastiCacheEcpuLimit := 10000,
        fileStorageEnabled := true, fileStorageType := "s3",
        openSearchEnabled := false, openSearchDefaultIndex := "documents",
        openSearchStandbyReplicas := false, neptuneEnabled := false,
        bedrockKnowledgeBaseEnabled := false,
        embeddingModelId := "amazon.titan-embed-text-v1",
        vectorIndexName := "documents" },
    tags := [{ key := "project", value := "app" }] }

/-- A document whose only configured environment is `dev`, with `dev` as the
default (the document of the spec's scenario). -/
def docDevOnly : ProjectConfig :=
  { env := "dev", dev := sampleEnvConfig, staging := none, prod := none }

/-- A document whose default environment `staging` is absent from its
configured environments. -/
def docBadDefault : ProjectConfig :=
  { env := "staging", dev := sampleEnvConfig, staging := none, prod := none }

/-- A request whose process exits non-zero (used as a failing batch member). -/
def badReq : Req := ⟨"false", [], none⟩

/-- A request whose process succeeds with stdout "hi". -/
def goodReq : Req := ⟨"echo", ["hi"], none⟩

/-- A concrete world: `badReq` exits 1 with empty output, everything else
exits 0 with stdout bytes for "hi". -/
def w0 : World := fun r =>
  if r = badReq then .ran ⟨false, some 1, [], []⟩
  else .ran ⟨true, some 0, [104, 105], []⟩

/-- A request used to exercise the captured-output UTF-8 gate. -/
def reqCat : Req := ⟨"cat", ["blob.bin"], none⟩

/-- A world whose processes exit 0 but print the invalid UTF-8 byte `0xFF`. -/
def wInvalidUtf8 : World := fun _ => .ran ⟨true, some 0, [255], []⟩

/-- A dispatch continuation that does nothing (for exercising `runModel`). -/
def dispatchNone : EnvConfig → Except String Unit × List Req := fun _ => (.ok (), [])

/-- A filesystem oracle on which no path exists. -/
def fsNone : String → Bool := fun _ => false

/-! ## Helper lemmas on the batch error-collection loop -/

/-- Collection succeeds exactly when every joined result succeeded, and then
the output list is the positional image of the result list. -/
theorem collectOutputs_eq_ok :
    ∀ {results : List (Except ExecError String)} {outs : List String},
    collectOutputs results = Except.ok outs → results = outs.map Except.ok
  | [], outs, h => by
    simp only [collectOutputs] at h
    cases h
    rfl
  | .error e :: rest, outs, h => by
    simp [collectOutputs] at h
  | .ok s :: rest, outs, h => by
    cases hrest : collectOutputs rest with
    | error e =>
      rw [collectOutputs, hrest] at h
      exact absurd h (by simp)
    | ok outs' =>
      rw [collectOutputs, hrest] at h
      cases h
      simp [collectOutputs_eq_ok hrest]

/-- When some joined result failed, collection surfaces the positionally
first failure, wrapped once in the "Command execution failed" context. -/
theorem collectOutputs_eq_error_of_firstError :
    ∀ {results : List (Except ExecError String)} {e : ExecError},
    firstError results = some e →
    collectOutputs results = .error (.context "Command execution failed" e)
  | [], e, h => by simp [firstError, List.findSome?] at h
  | .error e' :: rest, e, h => by
    simp [firstError, List.findSome?] at h
    subst h
    rfl
  | .ok s :: rest, e, h => by
    have h' : firstError rest = some e := by
      simpa [firstError, List.findSome?] using h
    rw [collectOutputs, collectOutputs_eq_error_of_firstError h']

/-! ## Helper lemmas on environment availability -/

/-- The `dev` environment is always available (it is a mandatory field). -/
theorem dev_mem_available (cfg : ProjectConfig) : "dev" ∈ getAvailableEnvironments cfg := by
  simp only [getAvailableEnvironments]
  split <;> split <;> simp

/-- A configured `staging` environment is listed as available. -/
theorem staging_mem_available (cfg : ProjectConfig) (h : cfg.staging.isSome) :
    "staging" ∈ getAvailableEnvironments cfg := by
  simp only [getAvailableEnvironments, h, if_true]
  split <;> simp

/-- A configured `prod` environment is listed as available. -/
theorem prod_mem_available (cfg : ProjectConfig) (h : cfg.prod.isSome) :
    "prod" ∈ getAvailableEnvironments cfg := by
  simp only [getAvailableEnvironments, h, if_true]
  split <;> simp

/-- Every branch of the post-gate destroy body passes the prompt log
through unchanged. -/
theorem destroyStacksBody_prompts (stack : Option String) (all : Bool)
    (envCfg : EnvConfig) (ex : CommandExecutor) (world : World) (selection : Nat)
    (prompts : List ConfirmPrompt) :
    (destroyStacksBody stack all envCfg ex world selection prompts).prompts = prompts := by
  simp only [destroyStacksBody]
  split
  · rfl
  · split
    · rfl
    · split
      · rfl
      · split <;> rfl

/-- The config file search loop agrees with the spec-side first-match
formulation, directory by directory. -/
theorem findConfigFile_eq_spec (fileExists : String → Bool) :
    ∀ dirs, findConfigFile fileExists dirs = findConfigFileSpec fileExists dirs
  | [] => rfl
  | d :: rest => by
    by_cases h1 : fileExists (joinPath d configFileName)
    · simp [findConfigFile, findConfigFileSpec, List.find?, h1]
    · by_cases h2 : fileExists (joinPath d exampleFileName)
      · simp [findConfigFile, findConfigFileSpec, List.find?, h1, h2]
      · simp only [findConfigFile, findConfigFileSpec, List.find?, h1, h2,
          Bool.false_or, if_false]
        rw [findConfigFile_eq_spec fileExists rest]
        simp [findConfigFileSpec, h1, h2]

/-! ## Claim theorems -/

/-- C1 (counterexample). Claim: when a batch member fails in non-dry-run
mode, exactly one collected error is propagated which names the failing
member and notes how many total members were submitted, and results for the
non-failing members are still returned. On the batch `[badReq, goodReq]`
where `badReq` exits 1, `execute_parallel` returns only an error — the
successful member's output (`"hi"`, which its own execution produced) is
discarded, and neither the context string nor the member error mentions the
member count 2. -/
theorem c1_parallel_failure_counterexample :
    executeParallel ⟨false, false⟩ w0 [badReq, goodReq]
      = (.error (.context "Command execution failed"
          (.msg "Command failed: false \nError: ")), [badReq, goodReq]) ∧
    (executeParallel ⟨false, false⟩ w0 [badReq, goodReq]).fst.isOk = false ∧
    executeSingle w0 goodReq = .ok "hi" ∧
    strContains "Command failed: false \nError: " "2" = false ∧
    strContains "Command execution failed" "2" = false := by decide

/-- C1 (amended). For every non-dry-run batch with at least one failing
member, all members are still spawned and run to completion (the spawn
trace is the whole input list: `join_all` awaits every task before the
error loop), and exactly one error is propagated — the positionally first
failing member's own error (whose message embeds that member's command
line) wrapped in the "Command execution failed" context; the non-failing
members' outputs are discarded and the total member count is not reported. -/
theorem c1_parallel_failure_amended :
    ∀ (world : World) (verbose : Bool) (cmds : List Req) (e : ExecError),
    firstError (cmds.map (executeSingle world)) = some e →
    executeParallel ⟨false, verbose⟩ world cmds
      = (.error (.context "Command execution failed" e), cmds) := by
  intro world v cmds e h
  simp [executeParallel, collectOutputs_eq_error_of_firstError h]

/-- C1 (witness). The amended theorem applied to the concrete two-member
batch whose first member fails. -/
theorem c1_parallel_failure_amended_witness :
    firstError ([badReq, goodReq].map (executeSingle w0))
      = some (.msg "Command failed: false \nError: ") ∧
    executeParallel ⟨false, false⟩ w0 [badReq, goodReq]
      = (.error (.context "Command execution failed"
          (.msg "Command failed: false \nError: ")), [badReq, goodReq]) :=
  ⟨by decide,
   c1_parallel_failure_amended w0 false [badReq, goodReq]
     (.msg "Command failed: false \nError: ") (by decide)⟩

/-- C2 (counterexample). Claim: resolving `"staging"` against a document
whose only configured environment is `dev` fails with an error listing
`["dev"]` as the valid options. In fact the error is the fixed string
"Staging environment not configured", which does not mention `dev` at all
(even though `get_available_environments` on that document is `["dev"]`). -/
theorem c2_unknown_environment_counterexample :
    getAvailableEnvironments docDevOnly = ["dev"] ∧
    getEnvConfig docDevOnly "staging" = .error "Staging environment not configured" ∧
    strContains "Staging environment not configured" "dev" = false := by decide

/-- C2 (amended). Resolving an unconfigured `staging`/`prod` fails with the
fixed "&lt;Env&gt; environment not configured" message naming no options;
resolving any name outside dev/staging/prod fails with a message listing
the fixed option set "dev, staging, prod" regardless of which environments
the document actually configures. -/
theorem c2_unknown_environment_amended :
    ∀ (cfg : ProjectConfig) (name : String),
    (cfg.staging = none →
      getEnvConfig cfg "staging" = .error "Staging environment not configured") ∧
    (cfg.prod = none →
      getEnvConfig cfg "prod" = .error "Production environment not configured") ∧
    (name ≠ "dev" → name ≠ "staging" → name ≠ "prod" →
      getEnvConfig cfg name
        = .error s!"Invalid environment '{name}'. Valid options: dev, staging, prod") := by
  intro cfg name
  refine ⟨?_, ?_, ?_⟩
  · intro h
    simp [getEnvConfig, h]
  · intro h
    simp [getEnvConfig, h]
  · intro h1 h2 h3
    simp [getEnvConfig, h1, h2, h3]

/-- C2 (witness). The amended theorem applied to the dev-only document at
`"staging"` and at the unknown name `"qa"`. -/
theorem c2_unknown_environment_amended_witness :
    docDevOnly.staging = none ∧
    getEnvConfig docDevOnly "staging" = .error "Staging environment not configured" ∧
    getEnvConfig docDevOnly "qa"
      = .error "Invalid environment 'qa'. Valid options: dev, staging, prod" :=
  ⟨rfl,
   (c2_unknown_environment_amended docDevOnly "qa").1 rfl,
   (c2_unknown_environment_amended docDevOnly "qa").2.2 (by decide) (by decide) (by decide)⟩

/-- C3. For every document whose default environment is absent from the
configured environments, resolution without an explicit override fails,
the dispatch continuation never runs, no request reaches the process
executor (the spawn trace is empty), and the process exits non-zero. -/
theorem c3_bad_default_fails_before_spawn :
    ∀ (cfg : ProjectConfig) (dispatch : EnvConfig → Except String Unit × List Req),
    cfg.env ∉ getAvailableEnvironments cfg →
    ∃ e, runModel none cfg dispatch = (.error e, []) ∧
      mainExitCode (runModel none cfg dispatch).fst = 1 := by
  intro cfg dispatch h
  have hdev : cfg.env ≠ "dev" := fun he => h (he ▸ dev_mem_available cfg)
  simp only [runModel, resolveEnvironment, resolveEnvName, getDefaultEnv]
  by_cases h1 : cfg.env = "staging"
  · cases hs : cfg.staging with
    | some c => exact absurd (h1 ▸ staging_mem_available cfg (by simp [hs])) h
    | none =>
      refine ⟨"Staging environment not configured", ?_, ?_⟩ <;>
        simp [getEnvConfig, h1, hs, mainExitCode]
  · by_cases h2 : cfg.env = "prod"
    · cases hp : cfg.prod with
      | some c => exact absurd (h2 ▸ prod_mem_available cfg (by simp [hp])) h
      | none =>
        refine ⟨"Production environment not configured", ?_, ?_⟩ <;>
          simp [getEnvConfig, h1, h2, hp, hdev, mainExitCode]
    · refine ⟨s!"Invalid environment '{cfg.env}'. Valid options: dev, staging, prod",
        ?_, ?_⟩ <;> simp [getEnvConfig, h1, h2, hdev, mainExitCode]

/-- C3 (witness). The document whose default is the unconfigured
`staging`. -/
theorem c3_bad_default_fails_before_spawn_witness :
    docBadDefault.env ∉ getAvailableEnvironments docBadDefault ∧
    (∃ e, runModel none docBadDefault dispatchNone = (.error e, []) ∧
      mainExitCode (runModel none docBadDefault dispatchNone).fst = 1) :=
  ⟨by decide, c3_bad_default_fails_before_spawn docBadDefault dispatchNone (by decide)⟩

/-- C4. In dry-run mode no entry point hands any request to the OS (the
spawn trace is empty) and each immediately returns its synthetic success:
`"DRY RUN"` for captured mode, `()` for streaming mode, and one `"DRY RUN"`
per member for parallel batches — uniformly, for every world, request and
batch, so no command handler needs its own dry-run branch. -/
theorem c4_dry_run_never_spawns :
    ∀ (world : World) (verbose : Bool) (r : Req) (cmds : List Req),
    execute ⟨true, verbose⟩ world r = (.ok "DRY RUN", []) ∧
    executeStreaming ⟨true, verbose⟩ world r = (.ok (), []) ∧
    executeParallel ⟨true, verbose⟩ world cmds
      = (.ok (List.replicate cmds.length "DRY RUN"), []) := by
  intro world v r cmds
  exact ⟨rfl, rfl, rfl⟩

/-- C5. Whenever the parallel runner returns successfully, the output list
has the same length as the input list and is positionally aligned with it:
in dry-run mode every member is the synthetic `"DRY RUN"` success, and
otherwise member `i`'s output is exactly the result its own execution
produced — never reordered. -/
theorem c5_batch_positional_alignment :
    ∀ (ex : CommandExecutor) (world : World) (cmds : List Req) (outs : List String),
    (executeParallel ex world cmds).fst = .ok outs →
    outs.length = cmds.length ∧
    (ex.dryRun = true → outs = List.replicate cmds.length "DRY RUN") ∧
    (ex.dryRun = false →
      ∀ i (hc : i < cmds.length) (ho : i < outs.length),
        executeSingle world (cmds.get ⟨i, hc⟩) = .ok (outs.get ⟨i, ho⟩)) := by
  intro ex world cmds outs h
  cases hd : ex.dryRun with
  | true =>
    rw [executeParallel, if_pos (by rw [hd])] at h
    injection h with h2
    subst h2
    exact ⟨by simp, fun _ => rfl, fun hfalse => absurd hfalse (by simp)⟩
  | false =>
    rw [executeParallel, if_neg (by simp [hd])] at h
    have hmap := collectOutputs_eq_ok h
    have hlen := congrArg List.length hmap
    simp only [List.length_map] at hlen
    refine ⟨hlen.symm, fun htrue => absurd htrue (by simp), fun _ i hc ho => ?_⟩
    have hi := congrArg (fun l => l[i]?) hmap
    simp only [List.getElem?_map] at hi
    rw [List.getElem?_eq_getElem hc, List.getElem?_eq_getElem ho] at hi
    simp only [Option.map_some'] at hi
    exact Option.some.inj hi

/-- C5 (witness). A successful one-member batch: the output list has the
input's length and position 0 carries that member's own output. -/
theorem c5_batch_positional_alignment_witness :
    (["hi"] : List String).length = [goodReq].length ∧
    executeSingle w0 goodReq = .ok "hi" :=
  ⟨(c5_batch_positional_alignment ⟨false, false⟩ w0 [goodReq] ["hi"] (by decide)).1,
   (c5_batch_positional_alignment ⟨false, false⟩ w0 [goodReq] ["hi"] (by decide)).2.2
     rfl 0 (by decide) (by decide)⟩

/-- C6. The destroy confirmation gate: with `force = true` the run shows no
confirmation prompt and is identical whatever the operator's pending answer
(the gate allows unconditionally); the `confirm_destructive` prompt's
default answer is always "no"; and with `force = false` a "no" answer
yields zero executor invocations, the informational "Destroy operation
cancelled" message, an `Ok` result and exit code 0. -/
theorem c6_destroy_confirmation_gate :
    ∀ (stack : Option String) (all : Bool) (envCfg : EnvConfig)
      (ex : CommandExecutor) (world : World) (confirmAnswer : Bool) (selection : Nat),
    (destroyStacks stack all envCfg ex true world confirmAnswer selection).prompts = [] ∧
    destroyStacks stack all envCfg ex true world confirmAnswer selection
      = destroyStacks stack all envCfg ex true world (!confirmAnswer) selection ∧
    (∀ action target, (confirmDestructive action target).defaultAnswer = false) ∧
    (confirmAnswer = false →
      destroyStacks stack all envCfg ex false world confirmAnswer selection
        = { result := .ok (), execCalls := [],
            prompts := [confirmDestructive "destroy"
              s!"{destroyTarget stack all} in {envCfg.deploymentName}"],
            infoLogs := ["Destroy operation cancelled"] }) ∧
    (confirmAnswer = false →
      mainExitCode (destroyStacks stack all envCfg ex false world confirmAnswer selection).result
        = 0) := by
  intro stack all envCfg ex world confirmAnswer selection
  refine ⟨?_, rfl, fun _ _ => rfl, fun hno => ?_, fun hno => ?_⟩
  · simp [destroyStacks, destroyStacksBody_prompts]
  · simp [destroyStacks, hno]
  · simp [destroyStacks, hno, mainExitCode]

/-- C6 (witness). A concrete denied destroy: no executor call, the
cancellation info log, an `Ok` result. -/
theorem c6_destroy_confirmation_gate_witness :
    destroyStacks none false sampleEnvConfig ⟨false, false⟩ false w0 false 0
      = { result := .ok (), execCalls := [],
          prompts := [confirmDestructive "destroy" "selected stack in app-dev"],
          infoLogs := ["Destroy operation cancelled"] } := by
  have h := (c6_destroy_confirmation_gate none false sampleEnvConfig ⟨false, false⟩
    w0 false 0).2.2.2.1 rfl
  exact h

/-- C7. Environment resolution is a pure function of the document and the
requested name: identical inputs give identical results (the Lean embedding
types it as effect-free, matching the `&self` borrow with no mutation in
the source). -/
theorem c7_resolution_deterministic :
    ∀ (cfg cfg' : ProjectConfig) (name name' : Option String),
    cfg = cfg' → name = name' →
    resolveEnvironment cfg name = resolveEnvironment cfg' name' := by
  intro cfg cfg' n n' h1 h2
  rw [h1, h2]

/-- C7 (witness). Two identical calls on the dev-only document. -/
theorem c7_resolution_deterministic_witness :
    resolveEnvironment docDevOnly none = resolveEnvironment docDevOnly none :=
  c7_resolution_deterministic docDevOnly docDevOnly none none rfl rfl

/-- C8. The config search agrees with its specification — the nearest
directory containing either recognized filename wins, primary name checked
before the example fallback within each directory — and when no directory
in the ancestor chain has either file it fails with the config-not-found
error. -/
theorem c8_config_search_order :
    ∀ (fileExists : String → Bool) (dirs : List String),
    findConfigFile fileExists dirs = findConfigFileSpec fileExists dirs ∧
    ((∀ d ∈ dirs, fileExists (joinPath d configFileName) = false ∧
        fileExists (joinPath d exampleFileName) = false) →
      findConfigFile fileExists dirs
        = .error "No config.yaml file found. Make sure you're in the project directory.") := by
  intro fileExists dirs
  refine ⟨findConfigFile_eq_spec fileExists dirs, fun hall => ?_⟩
  rw [findConfigFile_eq_spec fileExists dirs]
  have hnone : dirs.find? (fun d =>
      fileExists (joinPath d configFileName) || fileExists (joinPath d exampleFileName))
      = none := by
    rw [List.find?_eq_none]
    intro d hd
    simp [(hall d hd).1, (hall d hd).2]
  simp [findConfigFileSpec, hnone]

/-- C8 (witness). An empty filesystem over a two-directory ancestor chain
yields the config-not-found error. -/
theorem c8_config_search_order_witness :
    findConfigFile fsNone ["/a", "/"]
      = .error "No config.yaml file found. Make sure you're in the project directory." :=
  (c8_config_search_order fsNone ["/a", "/"]).2 (by decide)

/-- C9 (counterexample). Claim: looking up an unregistered component fails
with an error that enumerates the known component names. For the default
registry (backend, frontend, infrastructure) and the unregistered name
`"database"`, the error is only "Component 'database' not found" — none of
the three known names occurs in it. -/
theorem c9_unknown_component_counterexample :
    lookupComponent getDefaultComponents "database"
      = .error "Component 'database' not found" ∧
    getDefaultComponents.map Prod.fst = ["backend", "frontend", "infrastructure"] ∧
    strContains "Component 'database' not found" "backend" = false ∧
    strContains "Component 'database' not found" "frontend" = false ∧
    strContains "Component 'database' not found" "infrastructure" = false := by decide

/-- C9 (amended). Looking up a name that is neither registered nor the
special name "all" fails with an error naming the requested component —
"Component '&lt;name&gt;' not found" — which does not enumerate the known
names. -/
theorem c9_unknown_component_amended :
    ∀ (components : List (String × ComponentConfig)) (name : String),
    name ≠ "all" →
    components.lookup name = none →
    lookupComponent components name = .error s!"Component '{name}' not found" := by
  intro comps name _ h
  simp [lookupComponent, h]

/-- C9 (witness). The amended theorem applied to the default registry at
`"database"`. -/
theorem c9_unknown_component_amended_witness :
    getDefaultComponents.lookup "database" = none ∧
    lookupComponent getDefaultComponents "database"
      = .error "Component 'database' not found" :=
  ⟨by decide,
   c9_unknown_component_amended getDefaultComponents "database" (by decide) (by decide)⟩

/-- C10. In captured (non-dry-run) mode, when the child runs and exits zero
the executor returns success exactly when the captured stdout is valid
UTF-8 — it returns that decoded text — and returns the
"Command output is not valid UTF-8" error when the bytes do not decode,
even though the process itself succeeded. -/
theorem c10_captured_utf8_gate :
    ∀ (world : World) (verbose : Bool) (r : Req) (out : ProcOut),
    world r = .ran out → out.success = true →
    (∀ s, utf8Decode out.stdout = some s →
      execute ⟨false, verbose⟩ world r = (.ok s, [r])) ∧
    (utf8Decode out.stdout = none →
      execute ⟨false, verbose⟩ world r
        = (.error (.context "Command output is not valid UTF-8" (.utf8 out.stdout)), [r])) := by
  intro world v r out hw hs
  constructor
  · intro s hdec
    simp [execute, hw, hs, hdec]
  · intro hdec
    simp [execute, hw, hs, hdec]

/-- C10 (witness). A zero-exit process printing the invalid byte `0xFF`
still yields an error. -/
theorem c10_captured_utf8_gate_witness :
    wInvalidUtf8 reqCat = .ran ⟨true, some 0, [255], []⟩ ∧
    utf8Decode [255] = none ∧
    execute ⟨false, false⟩ wInvalidUtf8 reqCat
      = (.error (.context "Command output is not valid UTF-8" (.utf8 [255])), [reqCat]) :=
  ⟨rfl, by decide,
   (c10_captured_utf8_gate wInvalidUtf8 false reqCat ⟨true, some 0, [255], []⟩ rfl rfl).2
     (by decide)⟩
